import Mathlib

/-!
Verification development for the CareerCoach backend's journey
orchestration engine.  The Python services are shallowly embedded as
executable Lean functions: enums become inductives, record classes become
structures, DynamoDB tables become lists of records, and external calls
(the Bedrock generation backend, Python's float parser) become function
parameters.  Machine floats are modelled as rationals.
-/

set_option maxHeartbeats 1000000

namespace CareerCoach

/-! ## Journey stages (api/models/enums.py, JourneyStage)

`JourneyStage` is a `str` enum; stage services compare plain strings, so
each constructor carries its string `value`. -/

inductive JStage
  | AUTHENTICATED
  | BASIC_REGISTERED
  | PROFILE_COMPLETED
  | CAREER_PATHS_GENERATED
  | CAREER_PATH_SELECTED
  | ROADMAP_GENERATED
  | ROADMAP_ACTIVE
  | JOURNEY_COMPLETED
  | JOURNEY_PAUSED
deriving DecidableEq, Repr, Fintype

/-- The `.value` of the `str` enum member. -/
def JStage.value : JStage → String
  | .AUTHENTICATED => "AUTHENTICATED"
  | .BASIC_REGISTERED => "BASIC_REGISTERED"
  | .PROFILE_COMPLETED => "PROFILE_COMPLETED"
  | .CAREER_PATHS_GENERATED => "CAREER_PATHS_GENERATED"
  | .CAREER_PATH_SELECTED => "CAREER_PATH_SELECTED"
  | .ROADMAP_GENERATED => "ROADMAP_GENERATED"
  | .ROADMAP_ACTIVE => "ROADMAP_ACTIVE"
  | .JOURNEY_COMPLETED => "JOURNEY_COMPLETED"
  | .JOURNEY_PAUSED => "JOURNEY_PAUSED"

/-! ## Stage machine (api/services/new_stageServices.py, NewStageService) -/

/-- `NewStageService.STAGE_ORDER.get(stage, 0)`: the dict is keyed by the
`str` enum members, so string lookups succeed; unknown stages map to 0. -/
def stageOrder (stage : String) : Nat :=
  if stage = "AUTHENTICATED" then 1
  else if stage = "BASIC_REGISTERED" then 2
  else if stage = "PROFILE_COMPLETED" then 3
  else if stage = "CAREER_PATHS_GENERATED" then 4
  else if stage = "CAREER_PATH_SELECTED" then 5
  else if stage = "ROADMAP_GENERATED" then 6
  else if stage = "ROADMAP_ACTIVE" then 7
  else if stage = "JOURNEY_COMPLETED" then 8
  else if stage = "JOURNEY_PAUSED" then 9
  else 0

/-- Result dict of `validate_stage_transition`. -/
structure TransitionResult where
  valid : Bool
  reason : String
  transition_type : String
deriving DecidableEq, Repr

/-- `NewStageService.validate_stage_transition` (lines 60-143).  The
`try/except` wrapper is dead code here: the body performs only dict reads
and string comparisons, which cannot raise. -/
def validate_stage_transition (current_stage new_stage : String) : TransitionResult :=
  if current_stage = new_stage then
    ⟨true, "Same stage", "none"⟩
  else
    let current_order := stageOrder current_stage
    let new_order := stageOrder new_stage
    if current_stage = "ROADMAP_ACTIVE" then
      if new_stage = "JOURNEY_COMPLETED" ∨ new_stage = "JOURNEY_PAUSED" then
        ⟨true, "Valid transition from ROADMAP_ACTIVE", "special"⟩
      else
        ⟨false, "Cannot transition from " ++ current_stage ++ " to " ++ new_stage, "invalid"⟩
    else if current_stage = "JOURNEY_PAUSED" then
      if new_stage = "ROADMAP_ACTIVE" then
        ⟨true, "Resuming from pause", "resume"⟩
      else
        ⟨false, "Cannot transition from " ++ current_stage ++ " to " ++ new_stage, "invalid"⟩
    else if new_order > current_order then
      ⟨true, "Forward progression", "forward"⟩
    else if new_order < current_order then
      ⟨false, "Cannot go backward from " ++ current_stage ++ " to " ++ new_stage, "backward"⟩
    else
      ⟨false, "Unknown stage transition", "unknown"⟩

/-- C3: over the nine known journey stages, `validate_stage_transition`
succeeds on forward transitions whose source is neither ROADMAP_ACTIVE nor
JOURNEY_PAUSED, fails on backward transitions except JOURNEY_PAUSED back to
ROADMAP_ACTIVE, succeeds on ROADMAP_ACTIVE to JOURNEY_PAUSED, and treats a
same-stage transition as a successful no-op. -/
theorem stage_transition_order_spec (s1 s2 : JStage) :
    ((stageOrder s2.value > stageOrder s1.value ∧ s1 ≠ .ROADMAP_ACTIVE ∧ s1 ≠ .JOURNEY_PAUSED) →
      (validate_stage_transition s1.value s2.value).valid = true) ∧
    (stageOrder s2.value < stageOrder s1.value →
      ((validate_stage_transition s1.value s2.value).valid = true ↔
        (s1 = .JOURNEY_PAUSED ∧ s2 = .ROADMAP_ACTIVE))) ∧
    (validate_stage_transition JStage.ROADMAP_ACTIVE.value JStage.JOURNEY_PAUSED.value).valid
      = true ∧
    (validate_stage_transition s1.value s1.value).valid = true := by
  cases s1 <;> cases s2 <;> decide

/-- Witness for `stage_transition_order_spec`: the forward transition
PROFILE_COMPLETED to CAREER_PATHS_GENERATED validates as successful. -/
theorem stage_transition_order_spec_witness :
    (validate_stage_transition "PROFILE_COMPLETED" "CAREER_PATHS_GENERATED").valid = true :=
  (stage_transition_order_spec .PROFILE_COMPLETED .CAREER_PATHS_GENERATED).1 (by decide)

/-- C4 (code bug): JOURNEY_PAUSED has the highest order number (9), so the
generic forward-progression rule lets *any* earlier stage transition into it;
`validate_stage_transition("PROFILE_COMPLETED", "JOURNEY_PAUSED")` returns
valid, contradicting the code's own comment that JOURNEY_PAUSED "can only go
to/from ROADMAP_ACTIVE". -/
theorem journey_paused_reachable_from_non_active :
    validate_stage_transition "PROFILE_COMPLETED" "JOURNEY_PAUSED"
      = ⟨true, "Forward progression", "forward"⟩ := by decide

/-! ## Response cleaning (api/core/llmConnector.py,
BedrockLLMClient._extract_and_clean_output, lines 67-93)

The helper receives the text extracted from the Bedrock response body and
cleans it before JSON parsing.  `clean_output.split("\n", 1)[1]` raises
`IndexError` when the text starts with a code fence but contains no
newline; the embedding surfaces that as `Except.error`.  String
transformations are carried out on the character list so that every
definition is structurally recursive and kernel-evaluable. -/

inductive CleanError
  | indexError
deriving DecidableEq, Repr

/-- Python `str.strip()`: drop leading and trailing whitespace. -/
def pyStrip (s : String) : String :=
  String.mk (((s.data.dropWhile Char.isWhitespace).reverse.dropWhile Char.isWhitespace).reverse)

/-- Split at the first occurrence of `sep` (Python `s.split(sep, 1)` for a
non-empty separator): `none` when `sep` does not occur. -/
def splitOnceList (sep : List Char) : List Char → Option (List Char × List Char)
  | [] => none
  | c :: cs =>
      if sep.isPrefixOf (c :: cs) then some ([], (c :: cs).drop sep.length)
      else
        match splitOnceList sep cs with
        | none => none
        | some (pre, post) => some (c :: pre, post)

/-- Python `s.replace(a, b)` for single-character `a`, `b`. -/
def replaceChar (a b : Char) (l : List Char) : List Char :=
  l.map (fun c => if c = a then b else c)

/-- Python `s.replace("\\'", "'")`: un-escape backslash-quote pairs,
scanning left to right and consuming each match. -/
def unescapeSingleQuotes : List Char → List Char
  | [] => []
  | '\\' :: '\u0027' :: rest => '\u0027' :: unescapeSingleQuotes rest
  | c :: rest => c :: unescapeSingleQuotes rest

/-- `re.sub(r' +', ' ', s)`: collapse runs of space characters (spaces
only, not all whitespace) to a single space. -/
def collapseSpaces : List Char → List Char
  | [] => []
  | [c] => [c]
  | c1 :: c2 :: rest =>
      if c1 = ' ' ∧ c2 = ' ' then collapseSpaces (c2 :: rest)
      else c1 :: collapseSpaces (c2 :: rest)

/-- The escape characters recognised by
`re.sub(r'\\(?!["\\/bfnrtu])', r'\\\\', s)`. -/
def jsonEscapeChars : List Char := ['"', '\\', '/', 'b', 'f', 'n', 'r', 't', 'u']

/-- `re.sub(r'\\(?!["\\/bfnrtu])', r'\\\\', s)`: double every backslash
not followed by a recognised escape character.  Like `re.sub`, scanning
resumes right after each single-character match. -/
def escapeBareBackslashes : List Char → List Char
  | [] => []
  | '\\' :: rest =>
      match rest with
      | c :: _ =>
          if c ∈ jsonEscapeChars then '\\' :: escapeBareBackslashes rest
          else '\\' :: '\\' :: escapeBareBackslashes rest
      | [] => ['\\', '\\']
  | c :: rest => c :: escapeBareBackslashes rest

/-- `BedrockLLMClient._extract_and_clean_output`, text-cleaning pipeline
(lines 67-93), applied to the text extracted from the response body.
Steps, in source order: strip; drop the first line if it starts with a
code fence (`split("\n", 1)[1]`, which raises `IndexError` when there is
no newline); drop a trailing fence; normalise curly double quotes
U+201C/U+201D to `"` and curly single quotes U+2018/U+2019 to `'`;
un-escape `\'`; collapse space runs and strip; double bare backslashes. -/
def extract_and_clean_output (text_output : String) : Except CleanError String := do
  let mut clean := pyStrip text_output
  if ("```".data).isPrefixOf clean.data then
    match splitOnceList ['\n'] clean.data with
    | some (_, rest) => clean := String.mk rest
    | none => throw CleanError.indexError
  if ("```".data).isSuffixOf clean.data then
    clean := String.mk (clean.data.take (clean.data.length - 3))
  clean := String.mk (replaceChar '\u201C' '\u0022' clean.data)
  clean := String.mk (replaceChar '\u201D' '\u0022' clean.data)
  clean := String.mk (replaceChar '\u2018' '\u0027' clean.data)
  clean := String.mk (replaceChar '\u2019' '\u0027' clean.data)
  clean := String.mk (unescapeSingleQuotes clean.data)
  clean := pyStrip (String.mk (collapseSpaces clean.data))
  clean := String.mk (escapeBareBackslashes clean.data)
  return clean

/-- C7 (code bug): the cleaner is not total over raw generator text.  An
input consisting only of a code-fence marker hits
`clean_output.split("\n", 1)[1]` with a single-element list, raising an
`IndexError` that escapes the helper instead of a ParseError carrying the
raw text. -/
theorem clean_output_crashes_on_bare_fence :
    extract_and_clean_output "```" = Except.error CleanError.indexError := rfl

/-! ## Detailed roadmap generation (api/agents/detailedRoadmapService.py)

The two Bedrock agent sub-calls are modelled by `Option`-valued inputs:
`none` covers both an unparseable response and a falsy (empty) parse,
exactly the cases `if not result` treats as failure. -/

/-- One phase of the high-level roadmap JSON (topics are plain strings). -/
structure HLPhase where
  phase : String
  duration : Option String
  topics : List String
  resources : List String
  outcomes : List String
deriving DecidableEq, Repr

/-- The high-level roadmap JSON produced by the first sub-call. -/
structure HighLevelRoadmap where
  careerTitle : Option String
  highLevelRoadmap : List HLPhase
  capstoneProjects : List String
deriving DecidableEq, Repr

/-- One topic entry of the subtopics JSON. -/
structure SubTopicEntry where
  topic : String
  subtopics : List String
deriving DecidableEq, Repr

/-- One phase entry of the subtopics JSON. -/
structure SubPhase where
  phase : String
  topics : List SubTopicEntry
deriving DecidableEq, Repr

/-- The subtopics JSON produced by the second sub-call. -/
structure SubtopicsBreakdown where
  subtopicsBreakdown : List SubPhase
deriving DecidableEq, Repr

/-- A topic of the merged roadmap, with default progress fields as set by
`merge_roadmaps` (isCompleted False, 5 questions, 0 correct, score 0.0). -/
structure MergedTopic where
  topic : String
  subtopics : List String
  isCompleted : Bool
  totalQuestions : Nat
  correctAnswers : Nat
  score : ℚ
deriving DecidableEq, Repr

/-- A phase of the merged roadmap. -/
structure MergedPhase where
  phase : String
  duration : Option String
  resources : List String
  outcomes : List String
  topics : List MergedTopic
deriving DecidableEq, Repr

/-- The merged detailed roadmap. -/
structure MergedRoadmap where
  careerTitle : Option String
  highLevelRoadmap : List MergedPhase
  capstoneProjects : List String
deriving DecidableEq, Repr

/-- Lookup in the `subtopic_map` dict built by `merge_roadmaps`: a later
phase entry with the same name overwrites the earlier one (dict
assignment), and likewise for topic entries inside a phase; missing keys
default to `[]`. -/
def subtopicLookup (st : SubtopicsBreakdown) (phaseName topicName : String) : List String :=
  match (st.subtopicsBreakdown.filter (fun p => p.phase = phaseName)).getLast? with
  | none => []
  | some p =>
      match (p.topics.filter (fun t => t.topic = topicName)).getLast? with
      | none => []
      | some t => t.subtopics

/-- `DetailedRoadmapService.merge_roadmaps` (lines 158-204) on truthy
inputs: merge subtopics into the high-level roadmap by phase+topic key. -/
def merge_roadmaps (hl : HighLevelRoadmap) (st : SubtopicsBreakdown) : MergedRoadmap :=
  { careerTitle := hl.careerTitle
    highLevelRoadmap := hl.highLevelRoadmap.map (fun ph =>
      { phase := ph.phase
        duration := ph.duration
        resources := ph.resources
        outcomes := ph.outcomes
        topics := ph.topics.map (fun t =>
          { topic := t
            subtopics := subtopicLookup st ph.phase t
            isCompleted := false
            totalQuestions := 5
            correctAnswers := 0
            score := 0 }) })
    capstoneProjects := hl.capstoneProjects }

/-- The value stored in the roadmap's `detailed_roadmap` field: Python is
dynamically typed, so the stored dict is either the merged plan or, on the
subtopics-failure fallback, the bare high-level plan. -/
inductive PlanResult
  | highOnly (h : HighLevelRoadmap)
  | merged (m : MergedRoadmap)
deriving DecidableEq, Repr

/-- `DetailedRoadmapService.generate_detailed_roadmap` (lines 235-275):
if the high-level sub-call fails, return `None`; if the subtopics sub-call
fails, return the high-level result alone; otherwise merge.  (The
merge-failure fallback at line 271 is unreachable: `merge_roadmaps`
returns `None` only for falsy arguments, which were already excluded.) -/
def generate_detailed_roadmap (high : Option HighLevelRoadmap)
    (sub : Option SubtopicsBreakdown) : Option PlanResult :=
  match high with
  | none => none
  | some h =>
      match sub with
      | none => some (PlanResult.highOnly h)
      | some st => some (PlanResult.merged (merge_roadmaps h st))

/-! ## Assessments (api/models/new_schema/assessment_model.py and
api/services/new_schema/assessment_service.py)

The assessments DynamoDB table is a list of records; a fresh uuid key is
modelled by a fresh `shell-<order>` id, which never collides inside one
creation run. -/

/-- A Python value held in an evaluation-result field: a string or a
number (int/float, modelled as a rational). -/
inductive PyVal
  | vStr (s : String)
  | vNum (q : ℚ)
deriving DecidableEq, Repr

/-- The evaluation dict returned by the scoring backend, restricted to the
keys read by `_parse_score_from_evaluation` ("Overall" and the sic-spelled
"Intermidiate_score"); `none` models an absent key. -/
structure EvalResult where
  overall : Option PyVal
  intermidiate_score : Option PyVal
deriving DecidableEq, Repr

/-- An assessment record (Assessment model, fields used by the services). -/
structure AssessmentRec where
  email : String
  assessment_id : String
  roadmap_id : Option String
  topic_name : Option String
  phase : Option String
  status : String
  assessment_order : Nat
  is_required : Bool
  is_passed : Bool
  percentage_score : Option ℚ
  evaluation : Option EvalResult
  completed_at : Option Nat
deriving DecidableEq, Repr

/-- `NewAssessmentService.create_roadmap_assessment_record` (lines 31-83):
the record a shell creation writes, with the model's defaults
(status "created", is_passed False, no score, no evaluation).  The uuid
sort key is modelled as `shell-<order>`. -/
def mkShellRec (email roadmap_id topic_name : String) (order : Nat) : AssessmentRec :=
  { email := email
    assessment_id := "shell-" ++ toString order
    roadmap_id := some roadmap_id
    topic_name := some topic_name
    phase := some "General"
    status := "created"
    assessment_order := order
    is_required := true
    is_passed := false
    percentage_score := none
    evaluation := none
    completed_at := none }

/-- The loop body of `create_assessments_for_roadmap` (lines 372-394):
walk the topic names of all phases in order, creating a shell for every
non-empty topic that is neither in the `unique_topics` set accumulated so
far (`seen`) nor among the roadmap's existing assessment topics. -/
def assessment_shells (email roadmap_id : String) (existingTopics : List String) :
    List String → List String → Nat → List AssessmentRec
  | [], _, _ => []
  | t :: ts, seen, order =>
      if t ≠ "" ∧ t ∉ seen ∧ t ∉ existingTopics then
        mkShellRec email roadmap_id t order ::
          assessment_shells email roadmap_id existingTopics ts (t :: seen) (order + 1)
      else
        assessment_shells email roadmap_id existingTopics ts seen order

/-- All topic names of a merged plan in phase order (the iteration order
of the nested loop in `create_assessments_for_roadmap`). -/
def planTopics (m : MergedRoadmap) : List String :=
  m.highLevelRoadmap.flatMap (fun p => p.topics.map (fun t => t.topic))

/-- `NewAssessmentService.create_assessments_for_roadmap` (lines 342-405)
on a merged plan: `existing` is the list returned by
`get_roadmap_assessments` for this (email, roadmap); the created records
are returned; `assessment_order` starts at `len(existing) + 1`. -/
def create_assessments_merged (email roadmap_id : String)
    (existing : List AssessmentRec) (m : MergedRoadmap) : List AssessmentRec :=
  assessment_shells email roadmap_id (existing.filterMap (fun a => a.topic_name))
    (planTopics m) [] (existing.length + 1)

/-- `create_assessments_for_roadmap` over a stored `PlanResult`.  On a
high-level-only plan the phases' topics are plain strings, so
`topic.get("topic")` raises `AttributeError` on the first topic (caught by
the caller); with no topics at all the loop creates nothing. -/
def create_assessments_for_roadmap (email roadmap_id : String)
    (existing : List AssessmentRec) (plan : PlanResult) :
    Except Unit (List AssessmentRec) :=
  match plan with
  | PlanResult.merged m => Except.ok (create_assessments_merged email roadmap_id existing m)
  | PlanResult.highOnly h =>
      if h.highLevelRoadmap.all (fun p => p.topics.isEmpty) then Except.ok []
      else Except.error ()

/-! ## Roadmap aggregate and the selectPath route
(api/models/new_schema/roadmap_model.py, services/new_schema/roadmap_service.py,
services/new_roadmapServices.py, routes/aiRoutes.py generate_detailed_roadmap) -/

/-- The selected career path payload; `title`, `description` and
`keySkillsRequired` are the fields the route validates and reads. -/
structure CareerPathSel where
  title : String
  description : String
  keySkillsRequired : List String
deriving DecidableEq, Repr

/-- The roadmap aggregate record (Roadmap model), restricted to the fields
the detailed-roadmap phase reads and writes. -/
structure RoadmapRec where
  email : String
  roadmap_id : String
  status : String
  selected_career_path : Option CareerPathSel
  detailed_roadmap : Option PlanResult
deriving DecidableEq, Repr

/-- `Roadmap.select_career_path` (lines 154-159). -/
def roadmapSelectCareerPath (r : RoadmapRec) (p : CareerPathSel) : RoadmapRec :=
  { r with selected_career_path := some p }

/-- `Roadmap.set_detailed_roadmap` (lines 161-167): stores the plan and
sets the status to ROADMAP_COMPLETED (the line carries the comment
"FIXED: Should be ROADMAP_COMPLETED as per user specification"). -/
def roadmapSetDetailedRoadmap (r : RoadmapRec) (plan : PlanResult) : RoadmapRec :=
  { r with detailed_roadmap := some plan, status := "ROADMAP_COMPLETED" }

/-- The persistent state touched by the detailed-roadmap phase: the user's
latest roadmap record and the assessments table. -/
structure PipelineState where
  roadmap : RoadmapRec
  assessments : List AssessmentRec
deriving DecidableEq, Repr

/-- An assessment row belongs to a roadmap when its partition key matches
the user and its `roadmap_id` matches (the filter used by
`get_roadmap_assessments`). -/
def belongsToRoadmap (email roadmap_id : String) (a : AssessmentRec) : Bool :=
  a.email = email ∧ a.roadmap_id = some roadmap_id

/-- `NewAssessmentService.delete_assessments_by_roadmap` (lines 407-444):
delete every assessment of the roadmap, returning the remaining table and
the deleted count. -/
def delete_assessments_by_roadmap (table : List AssessmentRec)
    (email roadmap_id : String) : List AssessmentRec × Nat :=
  ((table.filter (fun a => ¬ belongsToRoadmap email roadmap_id a)),
   (table.filter (belongsToRoadmap email roadmap_id)).length)

/-- `NewRoadmapService.set_detailed_roadmap` (roadmap_service.py lines
293-335): store the plan on the roadmap, persist, then attempt to create
assessment shells; a shell-creation failure is logged and ignored. -/
def service_set_detailed_roadmap (st : PipelineState) (plan : PlanResult) : PipelineState :=
  let r := roadmapSetDetailedRoadmap st.roadmap plan
  let existing := st.assessments.filter (belongsToRoadmap r.email r.roadmap_id)
  match create_assessments_for_roadmap r.email r.roadmap_id existing plan with
  | Except.ok created => ⟨r, st.assessments ++ created⟩
  | Except.error _ => ⟨r, st.assessments⟩

/-- The HTTP error outcomes of the route relevant here. -/
inductive RouteError
  | badStatus
  | notFound404
  | generationFailed
deriving DecidableEq, Repr

/-- Result of one invocation of the route: the response (detailed plan or
error), the resulting persisted state, the number of generation calls
made, and the number of assessment records deleted. -/
structure RouteOutcome where
  response : Except RouteError PlanResult
  state : PipelineState
  genCalls : Nat
  deletedCount : Nat
deriving Repr

/-- `generate_detailed_roadmap` route (aiRoutes.py lines 425-627),
with the generation backend abstracted as `gen`.  Flow: status guard;
empty-payload branch returns the existing plan or 404; cache check on the
stored selected-path title; on a title change, delete the roadmap's
assessments; generate; store via `update_with_detailed_roadmap` (select
path, then `set_detailed_roadmap`, which also spawns assessment shells).
The journey-stage side effect touches a different table and is dropped;
stored plans are structured values here, so the cached-plan JSON reparse
cannot fail. -/
def selectPathRoute (gen : CareerPathSel → Option PlanResult)
    (st : PipelineState) (selectedPath : Option CareerPathSel) : RouteOutcome :=
  let r := st.roadmap
  if r.status ≠ "CAREER_PATHS_GENERATED" ∧ r.status ≠ "ROADMAP_COMPLETED" then
    ⟨Except.error RouteError.badStatus, st, 0, 0⟩
  else
    match selectedPath with
    | none =>
        match r.detailed_roadmap, r.selected_career_path with
        | some plan, some _ => ⟨Except.ok plan, st, 0, 0⟩
        | _, _ => ⟨Except.error RouteError.notFound404, st, 0, 0⟩
    | some sel =>
        let titleMatch : Bool :=
          match r.selected_career_path with
          | some p => p.title = sel.title
          | none => false
        match r.detailed_roadmap with
        | some plan =>
            if titleMatch then
              ⟨Except.ok plan, st, 0, 0⟩
            else
              let (kept, deleted) := delete_assessments_by_roadmap st.assessments r.email r.roadmap_id
              match gen sel with
              | none => ⟨Except.error RouteError.generationFailed, ⟨r, kept⟩, 1, deleted⟩
              | some plan2 =>
                  let st2 := service_set_detailed_roadmap ⟨roadmapSelectCareerPath r sel, kept⟩ plan2
                  ⟨Except.ok plan2, st2, 1, deleted⟩
        | none =>
            match gen sel with
            | none => ⟨Except.error RouteError.generationFailed, st, 1, 0⟩
            | some plan2 =>
                let st2 := service_set_detailed_roadmap ⟨roadmapSelectCareerPath r sel, st.assessments⟩ plan2
                ⟨Except.ok plan2, st2, 1, 0⟩

/-! ## Concrete fixtures for the pipeline claims -/

/-- A sample selected career path. -/
def samplePath : CareerPathSel :=
  ⟨"Data Engineer", "Builds data platforms", ["SQL", "Python"]⟩

/-- A second career path with a different title. -/
def samplePath2 : CareerPathSel :=
  ⟨"ML Engineer", "Builds ML systems", ["Python"]⟩

/-- A sample high-level roadmap in which the topic "Python Basics" occurs
in two phases. -/
def sampleHL : HighLevelRoadmap :=
  ⟨some "Data Engineer",
   [⟨"Beginner", some "3 months", ["Python Basics", "SQL"], [], []⟩,
    ⟨"Intermediate", some "2 months", ["Python Basics"], [], []⟩],
   []⟩

/-- A sample subtopics breakdown matching `sampleHL`. -/
def sampleSubs : SubtopicsBreakdown :=
  ⟨[⟨"Beginner", [⟨"Python Basics", ["b1", "b2", "b3", "b4"]⟩,
                  ⟨"SQL", ["q1", "q2", "q3", "q4"]⟩]⟩,
    ⟨"Intermediate", [⟨"Python Basics", ["i1", "i2", "i3", "i4"]⟩]⟩]⟩

/-- The merged plan for the sample inputs. -/
def sampleMerged : MergedRoadmap := merge_roadmaps sampleHL sampleSubs

/-- A pipeline state right after career-path generation: no detailed plan
yet, no assessments. -/
def freshState : PipelineState :=
  ⟨⟨"user@example.com", "rm-1", "CAREER_PATHS_GENERATED", none, none⟩, []⟩

/-! ## C1: what a successful selectPath persists -/

/-- C1 counterexample: a concrete successful detailed-plan generation
stores the merged plan but sets the roadmap status to ROADMAP_COMPLETED,
not DETAILED_ROADMAP_COMPLETED as claimed. -/
theorem selectPath_status_not_detailed_completed :
    (selectPathRoute (fun _ => some (PlanResult.merged sampleMerged)) freshState
        (some samplePath)).response = Except.ok (PlanResult.merged sampleMerged) ∧
    (selectPathRoute (fun _ => some (PlanResult.merged sampleMerged)) freshState
        (some samplePath)).state.roadmap.status = "ROADMAP_COMPLETED" ∧
    (selectPathRoute (fun _ => some (PlanResult.merged sampleMerged)) freshState
        (some samplePath)).state.roadmap.status ≠ "DETAILED_ROADMAP_COMPLETED" := by
  refine ⟨rfl, rfl, ?_⟩
  decide

/-- C1 (amended): when the detailed-plan phase succeeds for a roadmap, the
generated plan is persisted on the aggregate together with the selected
path, and the status field is set to ROADMAP_COMPLETED. -/
theorem selectPath_success_persists_plan (gen : CareerPathSel → Option PlanResult)
    (st : PipelineState) (sel : CareerPathSel) (plan : PlanResult)
    (hdet : st.roadmap.detailed_roadmap = none)
    (hstat : st.roadmap.status = "CAREER_PATHS_GENERATED")
    (hgen : gen sel = some plan) :
    (selectPathRoute gen st (some sel)).response = Except.ok plan ∧
    (selectPathRoute gen st (some sel)).state.roadmap.detailed_roadmap = some plan ∧
    (selectPathRoute gen st (some sel)).state.roadmap.status = "ROADMAP_COMPLETED" ∧
    (selectPathRoute gen st (some sel)).state.roadmap.selected_career_path = some sel := by
  obtain ⟨⟨em, rid, stt, selp, det⟩, assess⟩ := st
  simp only at hdet hstat
  subst hdet hstat
  simp [selectPathRoute, hgen, service_set_detailed_roadmap,
    roadmapSelectCareerPath, roadmapSetDetailedRoadmap]
  cases create_assessments_for_roadmap em rid
      (List.filter (belongsToRoadmap em rid) assess) plan <;> simp

/-- Witness for `selectPath_success_persists_plan` at the sample inputs. -/
theorem selectPath_success_persists_plan_witness :
    (selectPathRoute (fun _ => some (PlanResult.highOnly sampleHL)) freshState
        (some samplePath)).state.roadmap.status = "ROADMAP_COMPLETED" :=
  (selectPath_success_persists_plan (fun _ => some (PlanResult.highOnly sampleHL))
    freshState samplePath (PlanResult.highOnly sampleHL) rfl rfl rfl).2.2.1

/-! ## C2: failure handling of the two generation sub-calls -/

/-- C2 counterexample: when the subtopic-expansion sub-call fails, the
operation does not abort.  `generate_detailed_roadmap` falls back to the
bare high-level result, the route stores that partial plan (it lacks
merged subtopics), and the roadmap status still advances — the aggregate
is not left as it was before the call. -/
theorem subtopic_failure_stores_partial_plan :
    generate_detailed_roadmap (some sampleHL) none = some (PlanResult.highOnly sampleHL) ∧
    (selectPathRoute (fun _ => generate_detailed_roadmap (some sampleHL) none) freshState
        (some samplePath)).state.roadmap.detailed_roadmap
      = some (PlanResult.highOnly sampleHL) ∧
    (selectPathRoute (fun _ => generate_detailed_roadmap (some sampleHL) none) freshState
        (some samplePath)).state.roadmap.status = "ROADMAP_COMPLETED" ∧
    (selectPathRoute (fun _ => generate_detailed_roadmap (some sampleHL) none) freshState
        (some samplePath)).state.roadmap ≠ freshState.roadmap := by
  refine ⟨rfl, rfl, rfl, ?_⟩
  decide

/-- C2 (amended): only a failure of the high-level sub-call aborts the
operation with the aggregate untouched; a failure of the subtopic
expansion instead stores the high-level plan without merged subtopics and
advances the status to ROADMAP_COMPLETED. -/
theorem detailed_generation_failure_modes (high : Option HighLevelRoadmap)
    (sub : Option SubtopicsBreakdown) (st : PipelineState) (sel : CareerPathSel)
    (hdet : st.roadmap.detailed_roadmap = none)
    (hstat : st.roadmap.status = "CAREER_PATHS_GENERATED") :
    (high = none →
      generate_detailed_roadmap high sub = none ∧
      selectPathRoute (fun _ => generate_detailed_roadmap high sub) st (some sel)
        = ⟨Except.error RouteError.generationFailed, st, 1, 0⟩) ∧
    (∀ h, high = some h → sub = none →
      (selectPathRoute (fun _ => generate_detailed_roadmap high sub) st
          (some sel)).state.roadmap.detailed_roadmap = some (PlanResult.highOnly h) ∧
      (selectPathRoute (fun _ => generate_detailed_roadmap high sub) st
          (some sel)).state.roadmap.status = "ROADMAP_COMPLETED") := by
  obtain ⟨⟨em, rid, stt, selp, det⟩, assess⟩ := st
  simp only at hdet hstat
  subst hdet hstat
  constructor
  · rintro rfl
    refine ⟨rfl, ?_⟩
    simp [selectPathRoute, generate_detailed_roadmap]
  · rintro h rfl rfl
    have hg : generate_detailed_roadmap (some h) none = some (PlanResult.highOnly h) := rfl
    simp [selectPathRoute, hg, service_set_detailed_roadmap,
      roadmapSelectCareerPath, roadmapSetDetailedRoadmap]
    cases create_assessments_for_roadmap em rid
        (List.filter (belongsToRoadmap em rid) assess) (PlanResult.highOnly h) <;> simp

/-- Witness for `detailed_generation_failure_modes`: with the high-level
sub-call failing, the whole route call leaves the fresh state untouched
and reports a generation failure. -/
theorem detailed_generation_failure_modes_witness :
    selectPathRoute (fun _ => generate_detailed_roadmap none (some sampleSubs)) freshState
        (some samplePath)
      = ⟨Except.error RouteError.generationFailed, freshState, 1, 0⟩ :=
  ((detailed_generation_failure_modes none (some sampleSubs) freshState samplePath
    rfl rfl).1 rfl).2

/-! ## C5: detailed-plan caching and invalidation -/

/-- C5: calling selectPath a second time with the same path title returns
the identical cached plan, with no generation call and no state change;
calling it with a different title deletes every assessment record tied to
the roadmap and invokes generation again. -/
theorem selectPath_cache_and_invalidate (gen : CareerPathSel → Option PlanResult)
    (st : PipelineState) (sel sel2 : CareerPathSel) (plan : PlanResult) :
    ((st.roadmap.detailed_roadmap = none) → (st.roadmap.status = "CAREER_PATHS_GENERATED") →
      (gen sel = some plan) →
      ((selectPathRoute gen st (some sel)).response = Except.ok plan ∧
       selectPathRoute gen (selectPathRoute gen st (some sel)).state (some sel)
         = ⟨Except.ok plan, (selectPathRoute gen st (some sel)).state, 0, 0⟩)) ∧
    ((st.roadmap.detailed_roadmap = some plan) →
      (st.roadmap.selected_career_path = some sel) →
      (st.roadmap.status = "ROADMAP_COMPLETED") →
      (sel.title ≠ sel2.title) →
      ((selectPathRoute gen st (some sel2)).genCalls = 1 ∧
       (selectPathRoute gen st (some sel2)).deletedCount
         = (st.assessments.filter
             (belongsToRoadmap st.roadmap.email st.roadmap.roadmap_id)).length ∧
       (gen sel2 = none →
         (selectPathRoute gen st (some sel2)).state.assessments
           = st.assessments.filter
               (fun a => ¬ belongsToRoadmap st.roadmap.email st.roadmap.roadmap_id a)))) := by
  obtain ⟨⟨em, rid, stt, selp, det⟩, assess⟩ := st
  constructor
  · rintro hdet hstat hgen
    simp only at hdet hstat
    subst hdet hstat
    simp only [selectPathRoute, service_set_detailed_roadmap,
      roadmapSelectCareerPath, roadmapSetDetailedRoadmap, hgen]
    cases hc : create_assessments_for_roadmap em rid
        (List.filter (belongsToRoadmap em rid) assess) plan <;> simp [hc]
  · rintro hdet hsel hstat hne
    simp only at hdet hsel hstat
    subst hdet hsel hstat
    simp only [selectPathRoute, delete_assessments_by_roadmap]
    cases hg : gen sel2 <;>
      simp [hg, hne, service_set_detailed_roadmap, roadmapSelectCareerPath,
        roadmapSetDetailedRoadmap]

/-- Witness for `selectPath_cache_and_invalidate`: after a first
successful generation from the fresh state, repeating the call with the
same title is a pure cache hit. -/
theorem selectPath_cache_and_invalidate_witness :
    selectPathRoute (fun _ => some (PlanResult.merged sampleMerged))
        (selectPathRoute (fun _ => some (PlanResult.merged sampleMerged)) freshState
          (some samplePath)).state (some samplePath)
      = ⟨Except.ok (PlanResult.merged sampleMerged),
         (selectPathRoute (fun _ => some (PlanResult.merged sampleMerged)) freshState
           (some samplePath)).state, 0, 0⟩ :=
  ((selectPath_cache_and_invalidate (fun _ => some (PlanResult.merged sampleMerged))
    freshState samplePath samplePath2 (PlanResult.merged sampleMerged)).1 rfl rfl rfl).2

/-! ## C6: one assessment shell per unique topic -/

/-- Topic names of a list of assessment records. -/
def topicsOf (l : List AssessmentRec) : List String :=
  l.filterMap (fun a => a.topic_name)

/-- Membership in the topics created by the shell loop: a shell is created
exactly for the non-empty topics not already seen and not already present. -/
theorem mem_topicsOf_assessment_shells (e r : String) (ex : List String)
    (ts : List String) :
    ∀ (seen : List String) (ord : Nat) (t : String),
      t ∈ topicsOf (assessment_shells e r ex ts seen ord) ↔
        (t ∈ ts ∧ t ≠ "" ∧ t ∉ seen ∧ t ∉ ex) := by
  induction ts with
  | nil => intro seen ord t; simp [assessment_shells, topicsOf]
  | cons h ts ih =>
      intro seen ord t
      by_cases hcond : (h ≠ "" ∧ h ∉ seen ∧ h ∉ ex)
      · rw [topicsOf, assessment_shells, if_pos hcond, List.filterMap_cons]
        have ih2 := ih (h :: seen) (ord + 1) t
        rw [topicsOf] at ih2
        simp only [mkShellRec, List.mem_cons, ih2]
        by_cases ht : t = h
        · subst ht; tauto
        · tauto
      · rw [topicsOf, assessment_shells, if_neg hcond]
        have ih2 := ih seen ord t
        rw [topicsOf] at ih2
        rw [ih2]
        simp only [List.mem_cons]
        by_cases ht : t = h
        · subst ht; tauto
        · tauto

/-- The topics created by one shell-loop run are pairwise distinct. -/
theorem topicsOf_assessment_shells_nodup (e r : String) (ex : List String)
    (ts : List String) :
    ∀ (seen : List String) (ord : Nat),
      (topicsOf (assessment_shells e r ex ts seen ord)).Nodup := by
  induction ts with
  | nil => intro seen ord; simp [assessment_shells, topicsOf]
  | cons h ts ih =>
      intro seen ord
      by_cases hcond : (h ≠ "" ∧ h ∉ seen ∧ h ∉ ex)
      · rw [topicsOf, assessment_shells, if_pos hcond, List.filterMap_cons]
        simp only [mkShellRec]
        refine List.Nodup.cons ?_ ?_
        · intro hmem
          have h2 := (mem_topicsOf_assessment_shells e r ex ts (h :: seen) (ord + 1) h).1
            (by rw [topicsOf]; exact hmem)
          exact h2.2.2.1 (List.mem_cons_self h seen)
        · have := ih (h :: seen) (ord + 1)
          rw [topicsOf] at this
          exact this
      · rw [topicsOf, assessment_shells, if_neg hcond]
        have := ih seen ord
        rw [topicsOf] at this
        exact this

/-- When every topic is empty or already present, the loop creates
nothing. -/
theorem assessment_shells_eq_nil (e r : String) (ex : List String)
    (ts : List String) :
    ∀ (seen : List String) (ord : Nat), (∀ t ∈ ts, t = "" ∨ t ∈ ex) →
      assessment_shells e r ex ts seen ord = [] := by
  induction ts with
  | nil => intro seen ord _; rfl
  | cons h ts ih =>
      intro seen ord hcov
      have hh := hcov h (List.mem_cons_self h ts)
      have hcond : ¬ (h ≠ "" ∧ h ∉ seen ∧ h ∉ ex) := by
        rcases hh with hh | hh
        · intro hc; exact hc.1 hh
        · intro hc; exact hc.2.2 hh
      rw [assessment_shells, if_neg hcond]
      exact ih seen ord (fun t ht => hcov t (List.mem_cons_of_mem h ht))

/-- C6: creating assessment shells for a merged plan yields exactly one
record per unique non-empty topic name not already present (a topic
recurring in several phases yields one shell); afterwards the roadmap's
assessment topics are pairwise distinct, and a repeated shell creation for
the same plan creates nothing. -/
theorem create_assessments_unique_per_topic (email rid : String) (m : MergedRoadmap)
    (existing : List AssessmentRec)
    (hnd : (topicsOf existing).Nodup) :
    (∀ t, t ∈ topicsOf (create_assessments_merged email rid existing m) ↔
        (t ∈ planTopics m ∧ t ≠ "" ∧ t ∉ topicsOf existing)) ∧
    (topicsOf (existing ++ create_assessments_merged email rid existing m)).Nodup ∧
    create_assessments_merged email rid
        (existing ++ create_assessments_merged email rid existing m) m = [] := by
  have hmem : ∀ t, t ∈ topicsOf (create_assessments_merged email rid existing m) ↔
      (t ∈ planTopics m ∧ t ≠ "" ∧ t ∉ topicsOf existing) := by
    intro t
    have h1 := mem_topicsOf_assessment_shells email rid
      (existing.filterMap (fun a => a.topic_name)) (planTopics m) [] (existing.length + 1) t
    rw [create_assessments_merged, topicsOf]
    rw [topicsOf] at h1
    rw [h1]
    simp [topicsOf]
  refine ⟨hmem, ?_, ?_⟩
  · have happ : topicsOf (existing ++ create_assessments_merged email rid existing m)
        = topicsOf existing ++ topicsOf (create_assessments_merged email rid existing m) := by
      rw [topicsOf, topicsOf, topicsOf, List.filterMap_append]
    rw [happ, List.nodup_append]
    refine ⟨hnd, ?_, ?_⟩
    · have := topicsOf_assessment_shells_nodup email rid
        (existing.filterMap (fun a => a.topic_name)) (planTopics m) [] (existing.length + 1)
      rw [topicsOf] at this
      rw [create_assessments_merged, topicsOf]
      exact this
    · intro t ht ht2
      exact ((hmem t).1 ht2).2.2 ht
  · rw [create_assessments_merged]
    apply assessment_shells_eq_nil
    intro t ht
    by_cases he : t = ""
    · exact Or.inl he
    · right
      rw [List.filterMap_append]
      by_cases hex : t ∈ topicsOf existing
      · exact List.mem_append.2 (Or.inl (by rw [topicsOf] at hex; exact hex))
      · have hcr : t ∈ topicsOf (create_assessments_merged email rid existing m) :=
          (hmem t).2 ⟨ht, he, hex⟩
        rw [create_assessments_merged, topicsOf] at hcr
        exact List.mem_append.2 (Or.inr hcr)

/-- Witness for `create_assessments_unique_per_topic`: with no prior
assessments and the sample plan (topic "Python Basics" in two phases),
creating shells twice yields no duplicates the second time. -/
theorem create_assessments_unique_per_topic_witness :
    create_assessments_merged "user@example.com" "rm-1"
        ([] ++ create_assessments_merged "user@example.com" "rm-1" [] sampleMerged)
        sampleMerged = [] :=
  (create_assessments_unique_per_topic "user@example.com" "rm-1" sampleMerged []
    (by simp [topicsOf])).2.2

/-! ## C8: assessment evaluation
(NewAssessmentService.evaluate_roadmap_assessment, lines 193-257, and
_parse_score_from_evaluation, lines 456-478)

Python's `float(...)` call is abstracted as a parameter
`pfloat : String → Option ℚ` (`none` models a raised `ValueError`); the
surrounding `try/except` of `_parse_score_from_evaluation` maps any raise
to the default `0.0`. -/

/-- The body of `_parse_score_from_evaluation` inside its `try`:
read "Overall" (default "0%"); a string containing `%` is parsed with
`float` after stripping `%` (a raise aborts the whole body); a numeric
value is returned as-is; otherwise fall back to the "Intermidiate_score"
key with the same logic; else `0.0`. -/
def parse_score_body (pfloat : String → Option ℚ) (ev : EvalResult) : Except Unit ℚ :=
  let overall := ev.overall.getD (PyVal.vStr "0%")
  match overall with
  | PyVal.vNum q => Except.ok q
  | PyVal.vStr s =>
      if s.data.contains '%' then
        match pfloat (String.mk (s.data.filter (fun c => c ≠ '%'))) with
        | some q => Except.ok q
        | none => Except.error ()
      else
        let inter := ev.intermidiate_score.getD (PyVal.vStr "0%")
        match inter with
        | PyVal.vNum q => Except.ok q
        | PyVal.vStr s2 =>
            if s2.data.contains '%' then
              match pfloat (String.mk (s2.data.filter (fun c => c ≠ '%'))) with
              | some q => Except.ok q
              | none => Except.error ()
            else Except.ok 0

/-- `_parse_score_from_evaluation`: the `except` clause turns any raise
into the default `0.0`. -/
def parse_score_from_evaluation (pfloat : String → Option ℚ) (ev : EvalResult) : ℚ :=
  match parse_score_body pfloat ev with
  | Except.ok q => q
  | Except.error _ => 0

/-- `evaluate_roadmap_assessment` (lines 230-241), the mutation applied to
the assessment record after the scoring backend returns: store the
evaluation, parse the percentage score, set `is_passed` by the inclusive
60% threshold, complete the assessment and stamp the completion time. -/
def evaluate_roadmap_assessment (pfloat : String → Option ℚ) (a : AssessmentRec)
    (evaluation_result : EvalResult) (now : Nat) : AssessmentRec :=
  let overall_score := parse_score_from_evaluation pfloat evaluation_result
  { a with
    evaluation := some evaluation_result
    percentage_score := some overall_score
    is_passed := decide (overall_score ≥ 60)
    status := "completed"
    completed_at := some now }

/-- C8: evaluation always completes.  The parsed score defaults to 0 when
the float parse of a percentage-style "Overall" field raises; `is_passed`
is exactly `percentage_score >= 60.0`, so a score of exactly 60 passes;
and the assessment ends in status completed with a completion timestamp. -/
theorem evaluate_assessment_spec (pfloat : String → Option ℚ) (a : AssessmentRec)
    (ev : EvalResult) (now : Nat) :
    ((evaluate_roadmap_assessment pfloat a ev now).is_passed
      = decide (parse_score_from_evaluation pfloat ev ≥ 60)) ∧
    ((evaluate_roadmap_assessment pfloat a ev now).percentage_score
      = some (parse_score_from_evaluation pfloat ev)) ∧
    (evaluate_roadmap_assessment pfloat a ev now).status = "completed" ∧
    (evaluate_roadmap_assessment pfloat a ev now).completed_at = some now ∧
    (∀ s, ev.overall = some (PyVal.vStr s) → s.data.contains '%' = true →
      pfloat (String.mk (s.data.filter (fun c => c ≠ '%'))) = none →
      (evaluate_roadmap_assessment pfloat a ev now).percentage_score = some 0) ∧
    (parse_score_from_evaluation pfloat ev = 60 →
      (evaluate_roadmap_assessment pfloat a ev now).is_passed = true) := by
  refine ⟨rfl, rfl, rfl, rfl, ?_, ?_⟩
  · intro s hs hpct hfail
    simp only [ne_eq, decide_not] at hfail
    have hpct2 : '%' ∈ s.data := by simpa using hpct
    simp [evaluate_roadmap_assessment, parse_score_from_evaluation, parse_score_body,
      hs, hpct2, hfail]
  · intro h60
    simp [evaluate_roadmap_assessment, h60]

/-- Witness for `evaluate_assessment_spec`: a backend answer of "60%"
parses to 60 and passes (the threshold is inclusive), and an unparseable
"Overall" value defaults the stored score to 0. -/
theorem evaluate_assessment_spec_witness :
    (evaluate_roadmap_assessment (fun s => if s = "60" then some 60 else none)
        (mkShellRec "user@example.com" "rm-1" "Python Basics" 1)
        ⟨some (PyVal.vStr "60%"), none⟩ 7).is_passed = true ∧
    (evaluate_roadmap_assessment (fun _ => none)
        (mkShellRec "user@example.com" "rm-1" "Python Basics" 1)
        ⟨some (PyVal.vStr "abc%"), none⟩ 7).percentage_score = some 0 := by
  constructor
  · exact (evaluate_assessment_spec (fun s => if s = "60" then some 60 else none)
      (mkShellRec "user@example.com" "rm-1" "Python Basics" 1)
      ⟨some (PyVal.vStr "60%"), none⟩ 7).2.2.2.2.2 rfl
  · exact (evaluate_assessment_spec (fun _ => none)
      (mkShellRec "user@example.com" "rm-1" "Python Basics" 1)
      ⟨some (PyVal.vStr "abc%"), none⟩ 7).2.2.2.2.1 "abc%" rfl (by decide) rfl

/-! ## C9: roadmap progress statistics
(ProgressTrackingService._calculate_completion_stats, lines 171-188)

Float arithmetic is modelled over ℚ.  Python `round(x, 2)` is modelled as
nearest-integer rounding of `100 * x` (Mathlib `round`); Python rounds
half-to-even, which differs only on exact half-cent boundaries. -/

/-- Two-decimal rounding, the `round(x, 2)` calls of the stats helper. -/
def round2 (x : ℚ) : ℚ := (round (x * 100) : ℤ) / 100

/-- The stats dict returned by `_calculate_completion_stats`. -/
structure CompletionStats where
  total_assessments : Nat
  completed_assessments : Nat
  passed_assessments : Nat
  completion_rate : ℚ
  pass_rate : ℚ
  average_score : ℚ
deriving DecidableEq, Repr

/-- `ProgressTrackingService._calculate_completion_stats`. -/
def calculate_completion_stats (assessments : List AssessmentRec) : CompletionStats :=
  let total_assessments := assessments.length
  let completed_assessments :=
    (assessments.filter (fun a => a.status = "completed")).length
  let passed_assessments := (assessments.filter (fun a => a.is_passed)).length
  let scores := assessments.filterMap (fun a => a.percentage_score)
  let average_score : ℚ := if scores.length > 0 then scores.sum / scores.length else 0
  { total_assessments := total_assessments
    completed_assessments := completed_assessments
    passed_assessments := passed_assessments
    completion_rate :=
      if total_assessments > 0 then
        round2 ((completed_assessments : ℚ) / (total_assessments : ℚ) * 100)
      else 0
    pass_rate :=
      if total_assessments > 0 then
        round2 ((passed_assessments : ℚ) / (total_assessments : ℚ) * 100)
      else 0
    average_score := round2 average_score }

/-- A sample assessment record with the given status, pass flag and
optional score. -/
def mkStatsRec (status : String) (passed : Bool) (score : Option ℚ) : AssessmentRec :=
  { email := "user@example.com"
    assessment_id := "a-1"
    roadmap_id := some "rm-1"
    topic_name := some "Python Basics"
    phase := some "General"
    status := status
    assessment_order := 1
    is_required := true
    is_passed := passed
    percentage_score := score
    evaluation := none
    completed_at := none }

/-- C9 counterexample: with 3 assessments of which 1 is completed, the
code reports a completion rate of 33.33 (rounded to two decimals), not
the exact 100/3 the claim's formula gives. -/
theorem completion_rate_is_rounded :
    (calculate_completion_stats
        [mkStatsRec "completed" true (some 80), mkStatsRec "created" false none,
         mkStatsRec "created" false none]).completion_rate ≠ (1 : ℚ) / 3 * 100 ∧
    (calculate_completion_stats
        [mkStatsRec "completed" true (some 80), mkStatsRec "created" false none,
         mkStatsRec "created" false none]).completion_rate = 3333 / 100 := by
  have hcr : (calculate_completion_stats
      [mkStatsRec "completed" true (some 80), mkStatsRec "created" false none,
       mkStatsRec "created" false none]).completion_rate = 3333 / 100 := by
    simp [calculate_completion_stats, mkStatsRec]
    norm_num [round2, round_eq]
  refine ⟨?_, hcr⟩
  rw [hcr]
  norm_num

/-- C9 (amended): the stats helper counts total, completed and passed
assessments as stated, computes completion and pass rates as
completed/total×100 and passed/total×100 rounded to two decimals (0 when
total is 0), and averages only the available percentage scores, rounding
to two decimals (0 when no score is present). -/
theorem roadmap_progress_stats (assessments : List AssessmentRec) :
    (calculate_completion_stats assessments).total_assessments = assessments.length ∧
    (calculate_completion_stats assessments).completed_assessments
      = assessments.countP (fun a => a.status = "completed") ∧
    (calculate_completion_stats assessments).passed_assessments
      = assessments.countP (fun a => a.is_passed) ∧
    (calculate_completion_stats assessments).completion_rate
      = (if 0 < assessments.length then
          round2 ((assessments.countP (fun a => a.status = "completed") : ℚ)
            / (assessments.length : ℚ) * 100)
         else 0) ∧
    (calculate_completion_stats assessments).pass_rate
      = (if 0 < assessments.length then
          round2 ((assessments.countP (fun a => a.is_passed) : ℚ)
            / (assessments.length : ℚ) * 100)
         else 0) ∧
    (calculate_completion_stats assessments).average_score
      = round2 (if 0 < (assessments.filterMap (fun a => a.percentage_score)).length then
          (assessments.filterMap (fun a => a.percentage_score)).sum
            / ((assessments.filterMap (fun a => a.percentage_score)).length : ℚ)
        else 0) := by
  simp [calculate_completion_stats, List.countP_eq_length_filter]

/-! ## C10: profile versioning
(api/models/new_schema/profile_model.py and
api/services/new_schema/profile_service.py)

The user_profiles table is keyed by (email, profile_version); the
`is_current` GSI attribute is the string "true"/"false" as in the source.
The version key `v{int(timestamp)}` is modelled as `v<now>` with `now` an
explicit second counter. -/

/-- A profile version row, with the profile payload as a property bag. -/
structure ProfileRec where
  email : String
  profile_version : String
  is_current : String
  payload : List (String × String)
deriving DecidableEq, Repr

/-- DynamoDB `put_item`: replace the row with the same key, else append. -/
def profile_put_item (table : List ProfileRec) (p : ProfileRec) : List ProfileRec :=
  if table.any (fun q => q.email = p.email ∧ q.profile_version = p.profile_version) then
    table.map (fun q =>
      if q.email = p.email ∧ q.profile_version = p.profile_version then p else q)
  else table ++ [p]

/-- `UserProfileService.create_profile` (lines 34-66): put a new row with
`is_current = "true"` and version key `v{timestamp}`, without touching any
other row. -/
def create_profile (email : String) (payload : List (String × String)) (now : Nat)
    (table : List ProfileRec) : ProfileRec × List ProfileRec :=
  let p : ProfileRec := ⟨email, "v" ++ toString now, "true", payload⟩
  (p, profile_put_item table p)

/-- `UserProfileService.create_or_update_profile` (lines 68-81): an alias
for `create_profile` (the email is taken from the payload). -/
def create_or_update_profile (email : String) (payload : List (String × String))
    (now : Nat) (table : List ProfileRec) : ProfileRec × List ProfileRec :=
  create_profile email payload now table

/-- The filter of the `current-profiles-index` query in
`get_current_profile` (lines 83-116). -/
def isCurrentProfileOf (email : String) (q : ProfileRec) : Bool :=
  q.email = email ∧ q.is_current = "true"

/-- `UserProfileService.get_current_profile`: query the GSI for this
user's current row (Limit 1; under the one-current invariant at most one
row matches, so which match the store returns is immaterial). -/
def get_current_profile (email : String) (table : List ProfileRec) : Option ProfileRec :=
  (table.filter (isCurrentProfileOf email)).head?

/-- `dict.update` on the payload property bag: updated keys override. -/
def applyUpdates (base updates : List (String × String)) : List (String × String) :=
  base.filter (fun kv => updates.all (fun u => ¬ u.1 = kv.1)) ++ updates

/-- `UserProfileService.update_profile` with `create_new_version=True`
(lines 176-215): read the current row (error when absent), build the new
version via `UserProfile.create_new_version` (copy, apply updates, fresh
version key, `is_current="true"`), flip the old row's flag to "false" via
`update_item`, then put the new row. -/
def update_profile (email : String) (updates : List (String × String)) (now : Nat)
    (table : List ProfileRec) : Option (ProfileRec × List ProfileRec) :=
  match get_current_profile email table with
  | none => none
  | some cur =>
      let newp : ProfileRec :=
        ⟨email, "v" ++ toString now, "true", applyUpdates cur.payload updates⟩
      let t1 := table.map (fun q =>
        if q.email = email ∧ q.profile_version = cur.profile_version then
          { q with is_current := "false" }
        else q)
      some (newp, profile_put_item t1 newp)

/-- The number of versions marked current for a user. -/
def currentCount (email : String) (table : List ProfileRec) : Nat :=
  (table.filter (isCurrentProfileOf email)).length

/-- C10 counterexample: with one current profile stored, re-registration
through `create_or_update_profile` at a later second inserts a second row
marked current without flipping the first, leaving two versions current. -/
theorem reregistration_leaves_two_current_versions :
    currentCount "user@example.com"
      (create_or_update_profile "user@example.com" [("career_goal", "DE")] 2
        [⟨"user@example.com", "v1", "true", []⟩]).2 = 2 := by decide

/-- C10 (amended): `update_profile` (the new-version path) preserves the
at-most-one-current invariant — it flips the previous current row before
writing the new one, so with a fresh version key at most one row stays
current — whereas `create_or_update_profile` writes a new current row
without flipping the previous one. -/
theorem update_profile_preserves_single_current (email : String)
    (updates : List (String × String)) (now : Nat) (table : List ProfileRec)
    (hinv : currentCount email table ≤ 1)
    (hfresh : ∀ q ∈ table, ¬ (q.email = email ∧ q.profile_version = "v" ++ toString now)) :
    ∀ p t2, update_profile email updates now table = some (p, t2) →
      currentCount email t2 ≤ 1 := by
  intro p t2 hupd
  unfold update_profile at hupd
  cases hcur : get_current_profile email table with
  | none => rw [hcur] at hupd; exact absurd hupd (by simp)
  | some cur =>
      rw [hcur] at hupd
      simp only [Option.some.injEq, Prod.mk.injEq] at hupd
      obtain ⟨hp, ht2⟩ := hupd
      set t1 := table.map (fun q =>
        if q.email = email ∧ q.profile_version = cur.profile_version then
          { q with is_current := "false" }
        else q) with ht1
      -- after the flip, no row of t1 is current for this user
      have hcur_mem : cur ∈ table.filter (isCurrentProfileOf email) := by
        unfold get_current_profile at hcur
        exact List.mem_of_mem_head? hcur
      have hone : ∀ q ∈ table, isCurrentProfileOf email q = true →
          q.email = email ∧ q.profile_version = cur.profile_version := by
        intro q hq hqp
        have hq_mem : q ∈ table.filter (isCurrentProfileOf email) :=
          List.mem_filter.2 ⟨hq, hqp⟩
        have hlen := hinv
        unfold currentCount at hlen
        have hq_cur : q = cur := by
          rcases hfe : table.filter (isCurrentProfileOf email) with _ | ⟨a, rest⟩
          · rw [hfe] at hq_mem; exact absurd hq_mem (List.not_mem_nil q)
          · rw [hfe] at hlen hq_mem hcur_mem
            have hrest : rest = [] := by
              cases rest with
              | nil => rfl
              | cons b rb => simp at hlen
            subst hrest
            simp only [List.mem_singleton] at hq_mem hcur_mem
            rw [hq_mem, hcur_mem]
        subst hq_cur
        have he : q.email = email := by
          unfold isCurrentProfileOf at hqp
          simp only [Bool.decide_and, Bool.and_eq_true, decide_eq_true_eq] at hqp
          exact hqp.1
        exact ⟨he, rfl⟩
      have ht1none : ∀ q ∈ t1, isCurrentProfileOf email q = false := by
        intro q hq
        rw [ht1] at hq
        obtain ⟨q0, hq0, hq0e⟩ := List.mem_map.1 hq
        by_cases hkey : q0.email = email ∧ q0.profile_version = cur.profile_version
        · rw [if_pos hkey] at hq0e
          rw [← hq0e]
          unfold isCurrentProfileOf
          simp
        · rw [if_neg hkey] at hq0e
          rw [← hq0e]
          cases hqc : isCurrentProfileOf email q0 with
          | false => rfl
          | true => exact absurd (hone q0 hq0 hqc) hkey
      -- the fresh version key cannot collide, so the put appends
      subst hp
      rw [← ht2]
      have hexists : (t1.any fun q =>
          decide (q.email = email ∧ q.profile_version = "v" ++ toString now)) = false := by
        rw [List.any_eq_false]
        intro q hq
        rw [ht1] at hq
        obtain ⟨q0, hq0, hq0e⟩ := List.mem_map.1 hq
        have hkeep_email : q.email = q0.email := by
          by_cases hkey : q0.email = email ∧ q0.profile_version = cur.profile_version
          · rw [if_pos hkey] at hq0e; rw [← hq0e]
          · rw [if_neg hkey] at hq0e; rw [← hq0e]
        have hkeep_version : q.profile_version = q0.profile_version := by
          by_cases hkey : q0.email = email ∧ q0.profile_version = cur.profile_version
          · rw [if_pos hkey] at hq0e; rw [← hq0e]
          · rw [if_neg hkey] at hq0e; rw [← hq0e]
        simp only [Bool.decide_and, Bool.and_eq_true, decide_eq_true_eq, not_and]
        intro hqe hqv
        exact hfresh q0 hq0 ⟨by rw [← hkeep_email]; exact hqe,
          by rw [← hkeep_version]; exact hqv⟩
      have hfilt : t1.filter (isCurrentProfileOf email) = [] := by
        rw [List.filter_eq_nil_iff]
        intro q hq
        simp [ht1none q hq]
      have hnex : ¬ ∃ x ∈ t1, x.email = email ∧ x.profile_version = "v" ++ toString now := by
        simpa using hexists
      unfold currentCount
      simp [profile_put_item, hnex, List.filter_append, hfilt, isCurrentProfileOf]

/-- Witness for `update_profile_preserves_single_current`: updating the
one-row table flips the old version and keeps a single current version. -/
theorem update_profile_preserves_single_current_witness :
    currentCount "user@example.com"
      [⟨"user@example.com", "v1", "false", []⟩,
       ⟨"user@example.com", "v2", "true", [("career_goal", "DE")]⟩] ≤ 1 :=
  update_profile_preserves_single_current "user@example.com" [("career_goal", "DE")] 2
    [⟨"user@example.com", "v1", "true", []⟩] (by decide) (by decide)
    ⟨"user@example.com", "v2", "true", [("career_goal", "DE")]⟩
    [⟨"user@example.com", "v1", "false", []⟩,
     ⟨"user@example.com", "v2", "true", [("career_goal", "DE")]⟩]
    (by decide)

end CareerCoach
